import Mathlib

/-!
Verification of the message-collection and persona-safety core of the
`astrbot_plugin_self_learning` plugin, shallowly embedded in Lean 4.

The embedding follows `src/services/message_collector.py`
(`MessageCollectorService`) line by line.  Python's mutable object state is
threaded explicitly as a `CollectorState`; the external `DatabaseManager`
(the Storage Gateway, whose implementation lives outside `src/`) is modelled
from the spec as an environment `DBEnv` deciding which gateway calls succeed,
together with an explicit durable `Storage` record.  Python exceptions are
modelled by the `PyResult` sum: every operation returns its Python result (or
the exception it raises) together with the object state and the durable
state as they stand when the call finishes, which is exactly the state a
caller observes after catching the exception.
-/

namespace SelfLearning

/-- A Python exception, as the collector distinguishes them:
`MessageCollectionError` and `DataStorageError` come from the plugin's
`exceptions.py`; `gatewayError` stands for whatever exception an external
Storage Gateway call raises on failure. -/
inductive PyErr where
  | messageCollectionError
  | dataStorageError
  | gatewayError
deriving DecidableEq, Repr

/-- Result of a Python call: either a normal return value or a raised
exception. -/
inductive PyResult (α : Type) where
  | ok  : α → PyResult α
  | exc : PyErr → PyResult α
deriving DecidableEq, Repr

/-- A `message_data` mapping as `collect_message` receives it: the set of
keys present, plus an abstract payload distinguishing concrete messages.
`collect_message` only ever inspects key membership, so this captures what
the source code observes of the dict. -/
structure MessageData where
  keys : List String
  payload : Nat
deriving DecidableEq, Repr

/-- The `required_fields` list of `collect_message`. -/
def requiredFields : List String := ["sender_id", "message", "timestamp"]

/-- `collect_message`'s validation loop: every required field must be a key
of the mapping (the loop returns `False` at the first missing field; the
Boolean outcome is field-order independent). -/
def hasRequiredFields (m : MessageData) : Bool :=
  requiredFields.all (fun f => m.keys.contains f)

/-- The mutable fields of `MessageCollectorService` that the collection
path touches: `_message_cache`, `_cache_size_limit`, `_last_flush_time`,
`_flush_interval`.  Time is modelled in whole seconds as `Nat`. -/
structure CollectorState where
  message_cache : List MessageData
  cache_size_limit : Nat
  last_flush_time : Nat
  flush_interval : Nat
deriving DecidableEq, Repr

/-- `MessageCollectorService.__init__`: empty cache, size limit 100,
flush interval 30 seconds, last flush time set to construction time. -/
def CollectorState.init (now : Nat) : CollectorState :=
  { message_cache := []
    cache_size_limit := 100
    last_flush_time := now
    flush_interval := 30 }

/-- Durable state held by the Storage Gateway, plus an instrumentation
field: `saved` is the raw-message table, `flushes` records the batch of
each successful flush (so "how many automatic flushes happened" is
observable), `mark_calls` logs each `mark_messages_processed` gateway
call. -/
structure Storage where
  saved : List MessageData
  flushes : List (List MessageData)
  mark_calls : List (List Int)
deriving DecidableEq, Repr

/-- The empty Storage Gateway. -/
def Storage.init : Storage := { saved := [], flushes := [], mark_calls := [] }

/-- Modelled from the spec: the `DatabaseManager` implementation is not
under `src/` (only imported there).  Per §6 the Storage Gateway's calls
"fail with a storage-fault error kind on unavailability, and are assumed
durable once they return success"; the environment decides, per call, which
succeed, and supplies the data pure reads return. -/
structure DBEnv where
  saveOk : MessageData → Bool
  unprocOk : Bool
  markOk : Bool
  statsOk : Bool
  stats : List (String × Nat)
  recentOk : Bool
  recent : List Nat

/-- The environment in which every Storage Gateway call succeeds. -/
def DBEnv.allOk : DBEnv :=
  { saveOk := fun _ => true
    unprocOk := true
    markOk := true
    statsOk := true
    stats := []
    recentOk := true
    recent := [] }

/-- `MessageCollectorService._flush_message_cache`.  Empty cache: early
return, nothing touched.  Otherwise the buffered messages are written
concurrently (`asyncio.gather`); if every write succeeds the batch is
durable, the cache is cleared and the flush timer reset.  If any write
fails, `gather` re-raises (wrapped as `DataStorageError`), the writes that
did succeed remain durable (at-least-once), and neither the cache nor the
timer is touched because `clear()` is never reached. -/
def flushMessageCache (env : DBEnv) (st : CollectorState) (db : Storage)
    (now : Nat) : PyResult Unit × CollectorState × Storage :=
  if st.message_cache.isEmpty then
    (.ok (), st, db)
  else if st.message_cache.all env.saveOk then
    (.ok (),
     { st with message_cache := [], last_flush_time := now },
     { db with saved := db.saved ++ st.message_cache,
               flushes := db.flushes ++ [st.message_cache] })
  else
    (.exc .dataStorageError, st,
     { db with saved := db.saved ++ st.message_cache.filter env.saveOk })

/-- `MessageCollectorService.collect_message`.  A mapping missing a
required field makes the call return `False` with nothing touched.
Otherwise the message is appended to the cache and, when the cache has
reached the size limit or more than `flush_interval` seconds passed since
the last flush, `_flush_message_cache` is awaited in the same call; a
`DataStorageError` it raises is caught and re-raised as
`MessageCollectionError`. -/
def collect_message (env : DBEnv) (st : CollectorState) (db : Storage)
    (m : MessageData) (now : Nat) : PyResult Bool × CollectorState × Storage :=
  if hasRequiredFields m then
    let st1 := { st with message_cache := st.message_cache ++ [m] }
    if st1.message_cache.length ≥ st1.cache_size_limit ∨
        now - st1.last_flush_time > st1.flush_interval then
      match flushMessageCache env st1 db now with
      | (.ok _, st2, db2) => (.ok true, st2, db2)
      | (.exc _, st2, db2) => (.exc .messageCollectionError, st2, db2)
    else
      (.ok true, st1, db)
  else
    (.ok false, st, db)

/-- Modelled from the spec: `DatabaseManager.get_unprocessed_messages` —
a faithful Storage Gateway read returning what was saved (every saved raw
message, truncated when a limit is given), or raising on unavailability. -/
def dbGetUnprocessed (env : DBEnv) (db : Storage) (limit : Option Nat) :
    PyResult (List MessageData) :=
  if env.unprocOk then
    .ok (match limit with
         | none => db.saved
         | some n => db.saved.take n)
  else .exc .gatewayError

/-- `MessageCollectorService.get_unprocessed_messages`: flush the cache
first, then delegate to the gateway; any exception is re-raised as
`DataStorageError`. -/
def get_unprocessed_messages (env : DBEnv) (st : CollectorState)
    (db : Storage) (limit : Option Nat) (now : Nat) :
    PyResult (List MessageData) × CollectorState × Storage :=
  match flushMessageCache env st db now with
  | (.exc _, st1, db1) => (.exc .dataStorageError, st1, db1)
  | (.ok _, st1, db1) =>
    match dbGetUnprocessed env db1 limit with
    | .ok msgs => (.ok msgs, st1, db1)
    | .exc _ => (.exc .dataStorageError, st1, db1)

/-- Modelled from the spec: `DatabaseManager.mark_messages_processed` —
a gateway write, logged in `mark_calls`, raising on unavailability. -/
def dbMarkProcessed (env : DBEnv) (db : Storage) (ids : List Int) :
    PyResult Storage :=
  if env.markOk then .ok { db with mark_calls := db.mark_calls ++ [ids] }
  else .exc .gatewayError

/-- `MessageCollectorService.mark_messages_processed`: an empty id list
returns immediately before any gateway call; otherwise the gateway write
runs and a failure is re-raised as `DataStorageError`. -/
def mark_messages_processed (env : DBEnv) (st : CollectorState)
    (db : Storage) (ids : List Int) :
    PyResult Unit × CollectorState × Storage :=
  if ids.isEmpty then (.ok (), st, db)
  else
    match dbMarkProcessed env db ids with
    | .ok db1 => (.ok (), st, db1)
    | .exc _ => (.exc .dataStorageError, st, db)

/-- Python dict assignment `d[k] = v` on an association list read by first
match. -/
def dictSet (d : List (String × Nat)) (k : String) (v : Nat) :
    List (String × Nat) :=
  (k, v) :: d.filter (fun p => p.1 ≠ k)

/-- Modelled from the spec: `DatabaseManager.get_messages_statistics` —
a gateway aggregate read, raising on unavailability. -/
def dbGetStatistics (env : DBEnv) : PyResult (List (String × Nat)) :=
  if env.statsOk then .ok env.stats else .exc .gatewayError

/-- `MessageCollectorService.get_statistics`: flush first, fetch the
gateway aggregates, then set `cache_size` to the (post-flush) cache
length.  Any exception on the way — from the flush or from the gateway
read — is caught and an empty dict `{}` is returned instead. -/
def get_statistics (env : DBEnv) (st : CollectorState) (db : Storage)
    (now : Nat) : PyResult (List (String × Nat)) × CollectorState × Storage :=
  match flushMessageCache env st db now with
  | (.exc _, st1, db1) => (.ok [], st1, db1)
  | (.ok _, st1, db1) =>
    match dbGetStatistics env with
    | .ok stats =>
        (.ok (dictSet stats "cache_size" st1.message_cache.length), st1, db1)
    | .exc _ => (.ok [], st1, db1)

/-- Modelled from the spec: `DatabaseManager.get_recent_filtered_messages`
— a gateway read of scored filtered messages (payloads abstract), raising
on unavailability. -/
def dbGetRecentFiltered (env : DBEnv) (limit : Nat) : PyResult (List Nat) :=
  if env.recentOk then .ok (env.recent.take limit) else .exc .gatewayError

/-- `MessageCollectorService.get_recent_filtered_messages`: delegates to
the gateway; on any exception it returns the empty list instead of
raising. -/
def get_recent_filtered_messages (env : DBEnv) (st : CollectorState)
    (db : Storage) (limit : Nat) :
    PyResult (List Nat) × CollectorState × Storage :=
  match dbGetRecentFiltered env limit with
  | .ok msgs => (.ok msgs, st, db)
  | .exc _ => (.ok [], st, db)

/-- `MessageCollectorService.save_state`: flush the cache; any exception
is caught and only logged, so the call always returns normally. -/
def save_state (env : DBEnv) (st : CollectorState) (db : Storage)
    (now : Nat) : PyResult Unit × CollectorState × Storage :=
  match flushMessageCache env st db now with
  | (.ok _, st1, db1) => (.ok (), st1, db1)
  | (.exc _, st1, db1) => (.ok (), st1, db1)

/-- Run a sequence of `collect_message` calls (message together with the
`time.time()` value observed during the call), threading object and
durable state. -/
def runCollects (env : DBEnv) (inputs : List (MessageData × Nat))
    (st : CollectorState) (db : Storage) : CollectorState × Storage :=
  match inputs with
  | [] => (st, db)
  | (m, now) :: rest =>
      let r := collect_message env st db m now
      runCollects env rest r.2.1 r.2.2

/-! ### Persona-safety model

The persona update path.  Its interface is `IPersonaManager` in
`src/core/interfaces.py` (`update_persona` / `backup_persona` /
`restore_persona`); the implementation is elsewhere in the repository, so
the behaviour below is modelled from the spec (§4.3 Persona Coordinator and
§4.2 Backup Manager). -/

/-- The single mutable persona artifact; its serialized state is abstracted
to a `Nat`. -/
structure PersonaState where
  content : Nat
deriving DecidableEq, Repr

/-- Modelled from the spec: the Backup Manager's snapshot store (§4.2) —
the `IPersonaBackupManager` implementation is not under `src/`.  Each
snapshot is a full copy of the persona state tagged with its monotonically
assigned id. -/
structure BackupStore where
  backups : List (Nat × PersonaState)
  next_id : Nat
deriving DecidableEq, Repr

/-- Modelled from the spec: whether the Storage Gateway lets the backup
write succeed, and the style-application function the updater computes the
new persona with (its internals are outside the core). -/
structure PersonaEnv where
  backupOk : Bool
  applyStyle : PersonaState → PersonaState

/-- Modelled from the spec: `backup_persona(reason)` (§4.2
`create_backup`) — assigns the next identifier and stores a full copy of
the current persona state, or fails when the Storage Gateway is
unavailable, storing nothing. -/
def backup_persona (env : PersonaEnv) (ps : PersonaState) (bs : BackupStore) :
    PyResult Nat × BackupStore :=
  if env.backupOk then
    (.ok bs.next_id,
     { backups := bs.backups ++ [(bs.next_id, ps)],
       next_id := bs.next_id + 1 })
  else
    (.exc .gatewayError, bs)

/-- Modelled from the spec: `get_backup(backup_id)` (§4.2) — pure read,
absent is a normal outcome. -/
def get_backup (bs : BackupStore) (backup_id : Nat) : Option PersonaState :=
  (bs.backups.lookup backup_id)

/-- Modelled from the spec: the `IPersonaManager.update_persona` path
(§4.3, PENDING→BACKED_UP→APPLIED): `backup_persona` must complete and
return a valid backup id before any mutation is attempted; if the backup
fails, the attempt aborts fail-closed with the persona untouched; only
after the snapshot is stored is the style-derived mutation applied. -/
def update_persona (env : PersonaEnv) (ps : PersonaState) (bs : BackupStore) :
    PyResult Bool × PersonaState × BackupStore :=
  match backup_persona env ps bs with
  | (.exc e, bs1) => (.exc e, ps, bs1)
  | (.ok _backup_id, bs1) =>
      (.ok true, env.applyStyle ps, bs1)

/-! ### Helper lemmas -/

/-- Association-list lookup over an append, when the key is absent on the
left. -/
theorem lookup_append_of_left_none {α β : Type} [BEq α]
    (l1 l2 : List (α × β)) (a : α) (h : l1.lookup a = none) :
    (l1 ++ l2).lookup a = l2.lookup a := by
  induction l1 with
  | nil => simp
  | cons p l ih =>
      rcases p with ⟨k, v⟩
      by_cases hk : a == k
      · simp [List.lookup, hk] at h
      · simp [List.lookup, hk] at h ⊢
        exact ih h

/-- Case analysis of `collect_message` on a valid message when every
gateway write succeeds: with the post-append cache at or above the size
limit, or more than `flush_interval` seconds since the last flush, the
appended cache is flushed within the call (cache drained, timer reset,
batch durable); otherwise the call only appends, touching neither the
timer nor the durable state. -/
theorem collect_message_allOk_spec (st : CollectorState) (db : Storage)
    (m : MessageData) (now : Nat) (hv : hasRequiredFields m = true) :
    ((st.message_cache.length + 1 ≥ st.cache_size_limit ∨
        now - st.last_flush_time > st.flush_interval) →
      collect_message DBEnv.allOk st db m now =
        (.ok true,
         { st with message_cache := [], last_flush_time := now },
         { db with saved := db.saved ++ (st.message_cache ++ [m]),
                   flushes := db.flushes ++ [st.message_cache ++ [m]] })) ∧
    (¬ (st.message_cache.length + 1 ≥ st.cache_size_limit ∨
        now - st.last_flush_time > st.flush_interval) →
      collect_message DBEnv.allOk st db m now =
        (.ok true, { st with message_cache := st.message_cache ++ [m] },
         db)) := by
  constructor
  · intro hcond
    simp only [collect_message, hv, if_true]
    rw [if_pos (by simpa using hcond)]
    simp [flushMessageCache, DBEnv.allOk]
  · intro hcond
    simp only [collect_message, hv, if_true]
    rw [if_neg (by simpa using hcond)]

/-- Step lemma for the buffer-bound invariant: one `collect_message` call
under an all-succeeding gateway keeps the cache strictly below the
(positive) size limit and leaves the limit itself unchanged. -/
theorem collect_message_allOk_cache_bound (st : CollectorState)
    (db : Storage) (m : MessageData) (now : Nat)
    (hpos : 0 < st.cache_size_limit)
    (hlt : st.message_cache.length < st.cache_size_limit) :
    (collect_message DBEnv.allOk st db m now).2.1.message_cache.length <
      (collect_message DBEnv.allOk st db m now).2.1.cache_size_limit ∧
    (collect_message DBEnv.allOk st db m now).2.1.cache_size_limit =
      st.cache_size_limit := by
  by_cases hv : hasRequiredFields m
  · by_cases hcond : (st.message_cache.length + 1 ≥ st.cache_size_limit ∨
        now - st.last_flush_time > st.flush_interval)
    · rw [(collect_message_allOk_spec st db m now hv).1 hcond]
      exact ⟨hpos, rfl⟩
    · rw [(collect_message_allOk_spec st db m now hv).2 hcond]
      push_neg at hcond
      exact ⟨by simpa using hcond.1, rfl⟩
  · simp only [Bool.not_eq_true] at hv
    simp only [collect_message, hv, Bool.false_eq_true, if_false,
      eq_self_iff_true]
    exact ⟨hlt, trivial⟩

/-- The buffer-bound invariant propagated along any sequence of
`collect_message` calls under an all-succeeding gateway. -/
theorem runCollects_allOk_cache_bound (inputs : List (MessageData × Nat))
    (st : CollectorState) (db : Storage)
    (hpos : 0 < st.cache_size_limit)
    (hlt : st.message_cache.length < st.cache_size_limit) :
    (runCollects DBEnv.allOk inputs st db).1.message_cache.length <
      (runCollects DBEnv.allOk inputs st db).1.cache_size_limit ∧
    (runCollects DBEnv.allOk inputs st db).1.cache_size_limit =
      st.cache_size_limit := by
  induction inputs generalizing st db with
  | nil => exact ⟨hlt, rfl⟩
  | cons p rest ih =>
      obtain ⟨m, tnow⟩ := p
      obtain ⟨h1, h2⟩ := collect_message_allOk_cache_bound st db m tnow
        hpos hlt
      obtain ⟨ih1, ih2⟩ := ih (collect_message DBEnv.allOk st db m tnow).2.1
        (collect_message DBEnv.allOk st db m tnow).2.2
        (h2 ▸ hpos) (h2 ▸ h1)
      exact ⟨by simpa [runCollects] using ih1,
             by simpa [runCollects, h2] using ih2⟩

/-! ### Claim theorems -/

/-- C2: after every successful append, `collect_message` triggers a flush
awaited within the same call exactly when the buffer length has reached
the configured size limit or more than the configured interval elapsed
since the last flush (defaults 100 and 30 s, per `CollectorState.init`);
when the condition does not hold nothing beyond the append happens — no
timer reset and no storage write — so no separate timer is involved. -/
theorem collect_message_flush_iff_trigger (st : CollectorState)
    (db : Storage) (m : MessageData) (now : Nat)
    (hv : hasRequiredFields m = true) :
    ((st.message_cache.length + 1 ≥ st.cache_size_limit ∨
        now - st.last_flush_time > st.flush_interval) →
      collect_message DBEnv.allOk st db m now =
        (.ok true,
         { st with message_cache := [], last_flush_time := now },
         { db with saved := db.saved ++ (st.message_cache ++ [m]),
                   flushes := db.flushes ++ [st.message_cache ++ [m]] })) ∧
    (¬ (st.message_cache.length + 1 ≥ st.cache_size_limit ∨
        now - st.last_flush_time > st.flush_interval) →
      collect_message DBEnv.allOk st db m now =
        (.ok true, { st with message_cache := st.message_cache ++ [m] },
         db)) :=
  collect_message_allOk_spec st db m now hv

/-- Witness for C2: a fresh collector, one valid message arriving 40 s
after construction — the time trigger fires and the one-message batch is
flushed within the call. -/
theorem collect_message_flush_iff_trigger_witness :
    collect_message DBEnv.allOk (CollectorState.init 0) Storage.init
      ⟨requiredFields, 7⟩ 40 =
      (.ok true,
       { CollectorState.init 0 with
           message_cache := [],
           last_flush_time := 40 },
       { Storage.init with
           saved := Storage.init.saved ++ ([] ++ [⟨requiredFields, 7⟩]),
           flushes := Storage.init.flushes ++
             [[] ++ [⟨requiredFields, 7⟩]] }) :=
  (collect_message_flush_iff_trigger (CollectorState.init 0) Storage.init
    ⟨requiredFields, 7⟩ 40 (by decide)).1 (by decide)

/-- C3: `get_unprocessed_messages` flushes before reading, so any message
just accepted by `collect_message` — whether it is still in the cache or
was already flushed by the collect call itself — appears in the list the
faithful gateway returns (read-after-write, with no limit). -/
theorem collect_then_get_unprocessed_mem (st : CollectorState)
    (db : Storage) (m : MessageData) (now now2 : Nat)
    (hv : hasRequiredFields m = true) :
    (collect_message DBEnv.allOk st db m now).1 = .ok true ∧
    ∃ msgs : List MessageData,
      (get_unprocessed_messages DBEnv.allOk
        (collect_message DBEnv.allOk st db m now).2.1
        (collect_message DBEnv.allOk st db m now).2.2 none now2).1 =
        .ok msgs ∧ m ∈ msgs := by
  by_cases hcond : (st.message_cache.length + 1 ≥ st.cache_size_limit ∨
      now - st.last_flush_time > st.flush_interval)
  · rw [(collect_message_allOk_spec st db m now hv).1 hcond]
    exact ⟨rfl, db.saved ++ (st.message_cache ++ [m]),
      by simp [get_unprocessed_messages, flushMessageCache,
        dbGetUnprocessed, DBEnv.allOk], by simp⟩
  · rw [(collect_message_allOk_spec st db m now hv).2 hcond]
    exact ⟨rfl, db.saved ++ (st.message_cache ++ [m]),
      by simp [get_unprocessed_messages, flushMessageCache,
        dbGetUnprocessed, DBEnv.allOk], by simp⟩

/-- Witness for C3: a fresh collector, one valid message, read back with
no limit. -/
theorem collect_then_get_unprocessed_mem_witness :
    (collect_message DBEnv.allOk (CollectorState.init 0) Storage.init
      ⟨requiredFields, 9⟩ 10).1 = .ok true ∧
    ∃ msgs : List MessageData,
      (get_unprocessed_messages DBEnv.allOk
        (collect_message DBEnv.allOk (CollectorState.init 0) Storage.init
          ⟨requiredFields, 9⟩ 10).2.1
        (collect_message DBEnv.allOk (CollectorState.init 0) Storage.init
          ⟨requiredFields, 9⟩ 10).2.2 none 11).1 = .ok msgs ∧
      (⟨requiredFields, 9⟩ : MessageData) ∈ msgs :=
  collect_then_get_unprocessed_mem (CollectorState.init 0) Storage.init
    ⟨requiredFields, 9⟩ 10 11 (by decide)

/-- C9: with every gateway write succeeding, any sequence of
`collect_message` calls on a freshly constructed collector (size limit
100) leaves the in-memory cache strictly below 100; since every prefix of
a sequence is itself a sequence, the bound holds after every call. -/
theorem collect_sequence_cache_bound (inputs : List (MessageData × Nat))
    (t0 : Nat) (db0 : Storage) :
    (runCollects DBEnv.allOk inputs (CollectorState.init t0)
      db0).1.message_cache.length < 100 := by
  obtain ⟨h1, h2⟩ := runCollects_allOk_cache_bound inputs
    (CollectorState.init t0) db0 (by simp [CollectorState.init])
    (by simp [CollectorState.init])
  exact lt_of_lt_of_eq h1 h2

/-- C5: a mapping missing any of the required fields `sender_id`,
`message`, `timestamp` (the empty mapping included) makes
`collect_message` return `False` without raising, leaving the in-memory
cache and the durable storage untouched — no append, no gateway call. -/
theorem collect_message_invalid_rejected (env : DBEnv) (st : CollectorState)
    (db : Storage) (m : MessageData) (now : Nat)
    (h : hasRequiredFields m = false) :
    collect_message env st db m now = (.ok false, st, db) := by
  simp [collect_message, h]

/-- Witness for C5 at the empty mapping. -/
theorem collect_message_invalid_rejected_witness :
    collect_message DBEnv.allOk (CollectorState.init 0) Storage.init
      ⟨[], 0⟩ 0 = (.ok false, CollectorState.init 0, Storage.init) :=
  collect_message_invalid_rejected DBEnv.allOk (CollectorState.init 0)
    Storage.init ⟨[], 0⟩ 0 (by decide)

/-- C7: flushing an empty cache is a complete no-op — no storage write, no
flush-timer reset, every state component unchanged, and the call returns
normally; hence a second flush after a drain does nothing. -/
theorem flush_empty_cache_noop (env : DBEnv) (st : CollectorState)
    (db : Storage) (now : Nat) (h : st.message_cache = []) :
    flushMessageCache env st db now = (.ok (), st, db) := by
  simp [flushMessageCache, h]

/-- Witness for C7 at a freshly initialized collector. -/
theorem flush_empty_cache_noop_witness :
    flushMessageCache DBEnv.allOk (CollectorState.init 0) Storage.init 77 =
      (.ok (), CollectorState.init 0, Storage.init) :=
  flush_empty_cache_noop DBEnv.allOk (CollectorState.init 0) Storage.init 77
    rfl

/-- C10: `mark_messages_processed` on the empty id list returns normally
before any Storage Gateway call, leaving the cache and the durable state
unchanged — in every environment, including ones where the gateway would
fail. -/
theorem mark_messages_processed_empty_noop (env : DBEnv)
    (st : CollectorState) (db : Storage) :
    mark_messages_processed env st db [] = (.ok (), st, db) := by
  simp [mark_messages_processed]

/-- C1: when a flush of a nonempty cache hits a failing write, the whole
flush fails with a `DataStorageError` (the storage-fault kind), the
in-memory cache and the flush timer are left exactly as they were, and a
subsequent flush in an environment where the writes succeed re-attempts
and durably stores all originally buffered messages (at-least-once
delivery). -/
theorem flush_failure_at_least_once (env : DBEnv) (st : CollectorState)
    (db : Storage) (now now2 : Nat)
    (hne : st.message_cache ≠ [])
    (hfail : st.message_cache.all env.saveOk = false) :
    ∃ db1 : Storage,
      flushMessageCache env st db now = (.exc .dataStorageError, st, db1) ∧
      ∀ env2 : DBEnv, st.message_cache.all env2.saveOk = true →
        flushMessageCache env2 st db1 now2 =
          (.ok (),
           { st with message_cache := [], last_flush_time := now2 },
           { db1 with saved := db1.saved ++ st.message_cache,
                      flushes := db1.flushes ++ [st.message_cache] }) := by
  refine ⟨{ db with saved := db.saved ++ st.message_cache.filter env.saveOk },
    ?_, ?_⟩
  · simp [flushMessageCache, List.isEmpty_iff, hne, hfail]
  · intro env2 hok2
    simp [flushMessageCache, List.isEmpty_iff, hne, hok2]

/-- Witness for C1: one buffered message whose write the environment
fails. -/
theorem flush_failure_at_least_once_witness :
    ∃ db1 : Storage,
      flushMessageCache
        { DBEnv.allOk with saveOk := fun m => decide (m.payload ≠ 0) }
        { CollectorState.init 0 with message_cache := [⟨requiredFields, 0⟩] }
        Storage.init 3 =
        (.exc .dataStorageError,
         { CollectorState.init 0 with message_cache := [⟨requiredFields, 0⟩] },
         db1) ∧
      ∀ env2 : DBEnv,
        ([⟨requiredFields, 0⟩] : List MessageData).all env2.saveOk = true →
        flushMessageCache env2
          { CollectorState.init 0 with
              message_cache := [⟨requiredFields, 0⟩] } db1 4 =
          (.ok (),
           { { CollectorState.init 0 with
                 message_cache := [⟨requiredFields, 0⟩] } with
               message_cache := [], last_flush_time := 4 },
           { db1 with
               saved := db1.saved ++ [⟨requiredFields, 0⟩],
               flushes := db1.flushes ++ [[⟨requiredFields, 0⟩]] }) :=
  flush_failure_at_least_once
    { DBEnv.allOk with saveOk := fun m => decide (m.payload ≠ 0) }
    { CollectorState.init 0 with message_cache := [⟨requiredFields, 0⟩] }
    Storage.init 3 4 (by decide) (by decide)

/-- C8: on the persona update path, the backup completes and its snapshot
of the pre-update persona is retrievable under the returned id before any
mutation is applied; and when backup creation fails, the update aborts
with the gateway error and the persona exactly as it was (fail-closed).
The freshness hypothesis states the Backup Manager's id-assignment
invariant (§4.2: identifiers are monotonically assigned). -/
theorem update_persona_backup_first (env : PersonaEnv) (ps : PersonaState)
    (bs : BackupStore) (hfresh : bs.backups.lookup bs.next_id = none) :
    (env.backupOk = false →
      update_persona env ps bs = (.exc .gatewayError, ps, bs)) ∧
    (env.backupOk = true →
      update_persona env ps bs =
        (.ok true, env.applyStyle ps,
         { backups := bs.backups ++ [(bs.next_id, ps)],
           next_id := bs.next_id + 1 }) ∧
      get_backup (update_persona env ps bs).2.2 bs.next_id = some ps) := by
  constructor
  · intro hfail
    simp [update_persona, backup_persona, hfail]
  · intro hok
    constructor
    · simp [update_persona, backup_persona, hok]
    · simp only [update_persona, backup_persona, hok, if_pos, get_backup]
      rw [lookup_append_of_left_none _ _ _ hfresh]
      simp [List.lookup]

/-- Witness for C8 at a fresh backup store. -/
theorem update_persona_backup_first_witness :
    (({ backupOk := true, applyStyle := fun p => ⟨p.content + 1⟩ }
        : PersonaEnv).backupOk = false →
      update_persona
        { backupOk := true, applyStyle := fun p => ⟨p.content + 1⟩ }
        ⟨5⟩ ⟨[], 0⟩ = (.exc .gatewayError, ⟨5⟩, ⟨[], 0⟩)) ∧
    (({ backupOk := true, applyStyle := fun p => ⟨p.content + 1⟩ }
        : PersonaEnv).backupOk = true →
      update_persona
        { backupOk := true, applyStyle := fun p => ⟨p.content + 1⟩ }
        ⟨5⟩ ⟨[], 0⟩ =
        (.ok true,
         ({ backupOk := true, applyStyle := fun p => ⟨p.content + 1⟩ }
            : PersonaEnv).applyStyle ⟨5⟩,
         { backups := [] ++ [(0, ⟨5⟩)], next_id := 0 + 1 }) ∧
      get_backup
        (update_persona
          { backupOk := true, applyStyle := fun p => ⟨p.content + 1⟩ }
          ⟨5⟩ ⟨[], 0⟩).2.2 0 = some ⟨5⟩) :=
  update_persona_backup_first
    { backupOk := true, applyStyle := fun p => ⟨p.content + 1⟩ }
    ⟨5⟩ ⟨[], 0⟩ rfl

/-- The C4 scenario: 150 distinct valid messages collected back-to-back
(no inter-call delay — every call observes time 0) into a fresh
collector with the default size limit 100. -/
def scenarioInputs : List (MessageData × Nat) :=
  (List.range 150).map (fun i => (⟨requiredFields, i⟩, 0))

/-- Collector and storage state after the 150 collects of the C4
scenario. -/
def scenarioRun : CollectorState × Storage :=
  runCollects DBEnv.allOk scenarioInputs (CollectorState.init 0) Storage.init

set_option maxRecDepth 100000

/-- C4 counterexample: after the 150 collects, `get_statistics` reports
`cache_size = 0`, not 50 — it flushes the remaining 50 messages before
reading the cache length. -/
theorem scenario_statistics_counterexample :
    (get_statistics DBEnv.allOk scenarioRun.1 scenarioRun.2 0).1 =
      .ok [("cache_size", 0)] ∧
    (PyResult.ok [("cache_size", 0)] ≠
      (.ok [("cache_size", 50)] : PyResult (List (String × Nat)))) :=
  ⟨by decide, by decide⟩

/-- C4 amended: exactly one automatic flush happens, at the 100th
message, durably writing messages 0–99; the 50 messages 100–149 remain
buffered; but the `get_statistics` call then reports `cache_size = 0`,
because it drains the buffer (a second flush) before reading its
length. -/
theorem scenario_one_flush_fifty_left :
    scenarioRun.2.flushes =
      [(List.range 100).map
        (fun i => (⟨requiredFields, i⟩ : MessageData))] ∧
    scenarioRun.1.message_cache =
      ((List.range 150).drop 100).map
        (fun i => (⟨requiredFields, i⟩ : MessageData)) ∧
    (get_statistics DBEnv.allOk scenarioRun.1 scenarioRun.2 0).1 =
      .ok [("cache_size", 0)] :=
  ⟨by decide, by decide, by decide⟩

/-- The environment in which every Storage Gateway call fails. -/
def DBEnv.allFail : DBEnv :=
  { saveOk := fun _ => false
    unprocOk := false
    markOk := false
    statsOk := false
    stats := []
    recentOk := false
    recent := [] }

/-- A freshly constructed collector holding one buffered valid message. -/
def stOne : CollectorState :=
  { CollectorState.init 0 with message_cache := [⟨requiredFields, 0⟩] }

/-- C6 counterexample: with every gateway call failing, `get_statistics`
returns a normal empty dict, `get_recent_filtered_messages` a normal
empty list, and `save_state` returns normally even though the flush of
its nonempty cache failed — these operations swallow the storage fault
instead of propagating it. -/
theorem storage_fault_swallowed_counterexample :
    (get_statistics DBEnv.allFail stOne Storage.init 0).1 = .ok [] ∧
    (get_recent_filtered_messages DBEnv.allFail stOne Storage.init 5).1 =
      .ok [] ∧
    (save_state DBEnv.allFail stOne Storage.init 0).1 = .ok () :=
  ⟨by decide, by decide, by decide⟩

/-- C6 amended: a failing Storage Gateway makes the flush,
unprocessed-read and mark-processed operations raise the storage-fault
`DataStorageError`, but `get_statistics` swallows the fault into an empty
dict, `get_recent_filtered_messages` into an empty list, and `save_state`
into a normal return. -/
theorem storage_fault_propagation_mixed (st : CollectorState)
    (db : Storage) (now limit : Nat) (ids : List Int)
    (hne : st.message_cache ≠ []) (hids : ids ≠ []) :
    (flushMessageCache DBEnv.allFail st db now).1 =
      .exc .dataStorageError ∧
    (get_unprocessed_messages DBEnv.allFail st db none now).1 =
      .exc .dataStorageError ∧
    (mark_messages_processed DBEnv.allFail st db ids).1 =
      .exc .dataStorageError ∧
    (get_statistics DBEnv.allFail st db now).1 = .ok [] ∧
    (get_recent_filtered_messages DBEnv.allFail st db limit).1 = .ok [] ∧
    (save_state DBEnv.allFail st db now).1 = .ok () := by
  have hall : st.message_cache.all DBEnv.allFail.saveOk = false := by
    obtain ⟨x, xs, h⟩ := List.exists_cons_of_ne_nil hne
    rw [h]
    simp [DBEnv.allFail]
  have hflush : flushMessageCache DBEnv.allFail st db now =
      (.exc .dataStorageError, st,
       { db with saved := db.saved ++
           st.message_cache.filter DBEnv.allFail.saveOk }) := by
    simp [flushMessageCache, List.isEmpty_iff, hne, hall]
  refine ⟨by rw [hflush], ?_, ?_, ?_, ?_, ?_⟩
  · simp [get_unprocessed_messages, hflush]
  · simp [mark_messages_processed, dbMarkProcessed, DBEnv.allFail,
      List.isEmpty_iff, hids]
  · simp [get_statistics, hflush]
  · simp [get_recent_filtered_messages, dbGetRecentFiltered, DBEnv.allFail]
  · simp [save_state, hflush]

/-- Witness for the amended C6 at a one-message cache and a one-id
mark call. -/
theorem storage_fault_propagation_mixed_witness :
    (flushMessageCache DBEnv.allFail stOne Storage.init 0).1 =
      .exc .dataStorageError ∧
    (get_unprocessed_messages DBEnv.allFail stOne Storage.init none 0).1 =
      .exc .dataStorageError ∧
    (mark_messages_processed DBEnv.allFail stOne Storage.init [3]).1 =
      .exc .dataStorageError ∧
    (get_statistics DBEnv.allFail stOne Storage.init 0).1 = .ok [] ∧
    (get_recent_filtered_messages DBEnv.allFail stOne Storage.init 5).1 =
      .ok [] ∧
    (save_state DBEnv.allFail stOne Storage.init 0).1 = .ok () :=
  storage_fault_propagation_mixed stOne Storage.init 0 5 [3]
    (by decide) (by decide)

end SelfLearning
